import Mathlib

/-!
Verification development for the Circe statement-parser core (`src/parser.py`).

The embedding below translates the pure core of `parser.py` into Lean:

* a small backtracking regular-expression engine standing for Python's `re`
  module as used by the parser (`re.search` with
  `re.IGNORECASE | re.MULTILINE | re.DOTALL`); pattern strings from the
  bank-pattern catalog are compiled by `compileRe`, which supports exactly the
  constructs occurring in the catalog (literals, escapes, character classes,
  greedy and lazy quantifiers, bounded repetition, groups, alternation, `$`);
* Python's `datetime.strptime` for the nine formats in `DATE_FORMATS`,
  modelled by the very regular expressions CPython's `_strptime` builds for
  those formats (`%d` becomes `3[01]|[12]\d|0[1-9]|[1-9]`, a space becomes
  `\s+`, `%Y` becomes `\d\d\d\d`, month names are ordered longest first, and
  the whole input must be consumed), followed by calendar validation exactly
  as the `datetime` constructor performs it;
* `_clean_and_convert_date`, `_clean_and_convert_amount`, `_is_valid_date`,
  `_extract_with_multiple_patterns`, `parse_pdf_content` and `analyze_pdf`.

`analyze_pdf` in the source first extracts text from a PDF file; that step is
I/O (pdfplumber / PyPDF2), so the embedding takes the extraction result — an
optional text — as input, together with the validation-time date
(`datetime.now()`; only its calendar date is observable, because
`timedelta.days` of `current − midnight` equals the ordinal difference of the
two calendar dates for any time of day).

Python dictionaries with possibly-absent keys are modelled by `Option`-valued
record fields; a field of type `Option (Option X)` distinguishes an absent key
(`none`) from a key that is present with value `None` (`some none`).
Python floats are modelled by exact decimal values in canonical
sign-mantissa-exponent form, plus infinities and NaN; no claim below depends
on binary rounding.
-/

namespace Circe

/-- ASCII lower-casing of one character, as Python `str.lower` acts on ASCII. -/
def lowerChar (c : Char) : Char :=
  if 'A' ≤ c ∧ c ≤ 'Z' then Char.ofNat (c.toNat + 32) else c

/-- ASCII upper-casing of one character, as Python `str.upper` acts on ASCII. -/
def upperChar (c : Char) : Char :=
  if 'a' ≤ c ∧ c ≤ 'z' then Char.ofNat (c.toNat - 32) else c

/-- Python `str.lower` (the inputs exercised here are ASCII). -/
def lowerStr (s : String) : String := String.mk (s.data.map lowerChar)

/-- Python `str.upper` (the inputs exercised here are ASCII). -/
def upperStr (s : String) : String := String.mk (s.data.map upperChar)

/-- Decimal digit test, `[0-9]` / `\d`. -/
def isDigitC (c : Char) : Bool := '0' ≤ c && c ≤ '9'

/-- ASCII letter test. -/
def isAlphaC (c : Char) : Bool := ('a' ≤ c && c ≤ 'z') || ('A' ≤ c && c ≤ 'Z')

/-- Word character (`\w`) on ASCII input: letters, digits, underscore. -/
def isWordC (c : Char) : Bool := isDigitC c || isAlphaC c || c == '_'

/-- Whitespace (`\s`) as Python's `re` treats ASCII input. -/
def isSpaceC (c : Char) : Bool :=
  c == ' ' || c == '\t' || c == '\n' || c == '\r' || c == '\x0b' || c == '\x0c'

/-- A calendar date, the observable content of a Python `datetime` produced by
`strptime` with a date-only format. -/
structure PDate where
  y : Nat
  m : Nat
  d : Nat
deriving DecidableEq, Repr

/-- Gregorian leap-year rule, as `datetime` uses. -/
def isLeap (y : Nat) : Bool := y % 4 == 0 && (y % 100 != 0 || y % 400 == 0)

/-- Length of a month, as the `datetime` constructor validates days. -/
def daysInMonth (y m : Nat) : Nat :=
  if m == 2 then (if isLeap y then 29 else 28)
  else if m == 4 || m == 6 || m == 9 || m == 11 then 30
  else if 1 ≤ m && m ≤ 12 then 31
  else 0

/-- The `datetime(year, month, day)` constructor succeeds exactly under these
bounds (`MINYEAR = 1`, `MAXYEAR = 9999`). -/
def dateValid (dt : PDate) : Bool :=
  decide (1 ≤ dt.y ∧ dt.y ≤ 9999 ∧ 1 ≤ dt.m ∧ dt.m ≤ 12 ∧
    1 ≤ dt.d ∧ dt.d ≤ daysInMonth dt.y dt.m)

/-- Days in all years before `y` (proleptic Gregorian), as `date.toordinal`. -/
def daysBeforeYear (y : Nat) : Nat :=
  365 * (y - 1) + (y - 1) / 4 - (y - 1) / 100 + (y - 1) / 400

/-- Days in the months of year `y` strictly before month `m`. -/
def daysBeforeMonth (y m : Nat) : Nat :=
  (List.range (m - 1)).foldl (fun acc i => acc + daysInMonth y (i + 1)) 0

/-- Python `date.toordinal`: day count used for `timedelta` differences. -/
def ordD (dt : PDate) : Nat := daysBeforeYear dt.y + daysBeforeMonth dt.y dt.m + dt.d

/-- Decimal rendering of `n` left-padded with zeros to width `w`. -/
def padNat (w n : Nat) : String :=
  let s := Nat.repr n
  String.mk (List.replicate (w - s.length) '0') ++ s

/-- Python `datetime.strftime('%Y-%m-%d')` for the dates arising here. -/
def renderISO (dt : PDate) : String :=
  padNat 4 dt.y ++ "-" ++ padNat 2 dt.m ++ "-" ++ padNat 2 dt.d

/-- One item of a regular-expression character class. -/
inductive CItem where
  | single (c : Char)
  | crange (lo hi : Char)
  | cdigit
  | cword
  | cspace
  | cnspace
deriving DecidableEq, Repr

/-- Abstract syntax of the regular-expression fragment used by the parser's
pattern catalog and by `_strptime`'s generated expressions. -/
inductive Regex where
  | eps
  | anych
  | ch (c : Char)
  | cls (items : List CItem)
  | dig
  | wrd
  | spc
  | eol
  | grp (i : Nat) (r : Regex)
  | seq (a b : Regex)
  | alt (a b : Regex)
  | star (lazy : Bool) (r : Regex)
  | opt (lazy : Bool) (r : Regex)
deriving DecidableEq, Repr

/-- Class membership, case-insensitively (the parser always passes
`re.IGNORECASE`). -/
def citemMatch (c : Char) (it : CItem) : Bool :=
  match it with
  | .single x => lowerChar c == lowerChar x
  | .crange lo hi =>
      (decide (lo ≤ c) && decide (c ≤ hi)) ||
      (decide (lo ≤ lowerChar c) && decide (lowerChar c ≤ hi)) ||
      (decide (lo ≤ upperChar c) && decide (upperChar c ≤ hi))
  | .cdigit => isDigitC c
  | .cword => isWordC c
  | .cspace => isSpaceC c
  | .cnspace => !(isSpaceC c)

/-- Capture slots: group `i + 1` of the Python match object lives at index `i`. -/
abbrev Caps := List (Option (List Char))

/-- Record a capture. -/
def setCap (caps : Caps) (i : Nat) (v : Option (List Char)) : Caps := caps.set i v

/-- Backtracking matcher in continuation-passing style.  The search order is
the one Python's `re` uses: alternatives left to right, greedy quantifiers
longest first, lazy quantifiers shortest first; `.` matches every character
(`re.DOTALL`) and `$` matches at the end or before a newline (`re.MULTILINE`);
literals compare case-insensitively (`re.IGNORECASE`).  `fuel` only bounds the
recursion depth; it is chosen large enough for every evaluation performed
below. -/
def rmatch (fuel : Nat) (r : Regex) (s : List Char) (caps : Caps)
    (k : Caps → List Char → Option (Caps × List Char)) : Option (Caps × List Char) :=
  match fuel with
  | 0 => none
  | fuel + 1 =>
    match r with
    | .eps => k caps s
    | .anych =>
      match s with
      | [] => none
      | _ :: rest => k caps rest
    | .ch c =>
      match s with
      | [] => none
      | x :: rest => if lowerChar x == lowerChar c then k caps rest else none
    | .cls items =>
      match s with
      | [] => none
      | x :: rest => if items.any (citemMatch x) then k caps rest else none
    | .dig =>
      match s with
      | [] => none
      | x :: rest => if isDigitC x then k caps rest else none
    | .wrd =>
      match s with
      | [] => none
      | x :: rest => if isWordC x then k caps rest else none
    | .spc =>
      match s with
      | [] => none
      | x :: rest => if isSpaceC x then k caps rest else none
    | .eol =>
      match s with
      | [] => k caps s
      | x :: _ => if x == '\n' then k caps s else none
    | .grp i r' =>
      rmatch fuel r' s caps (fun c' s' =>
        k (setCap c' i (some (s.take (s.length - s'.length)))) s')
    | .seq a b =>
      rmatch fuel a s caps (fun c' s' => rmatch fuel b s' c' k)
    | .alt a b =>
      match rmatch fuel a s caps k with
      | some res => some res
      | none => rmatch fuel b s caps k
    | .star lz r' =>
      if lz then
        match k caps s with
        | some res => some res
        | none => rmatch fuel r' s caps (fun c' s' => rmatch fuel (.star lz r') s' c' k)
      else
        match rmatch fuel r' s caps (fun c' s' => rmatch fuel (.star lz r') s' c' k) with
        | some res => some res
        | none => k caps s
    | .opt lz r' =>
      if lz then
        match k caps s with
        | some res => some res
        | none => rmatch fuel r' s caps k
      else
        match rmatch fuel r' s caps k with
        | some res => some res
        | none => k caps s

/-- Structural size of a regex, used to pick a sufficient fuel. -/
def rsize : Regex → Nat
  | .grp _ r => rsize r + 1
  | .seq a b => rsize a + rsize b + 1
  | .alt a b => rsize a + rsize b + 1
  | .star _ r => rsize r + 1
  | .opt _ r => rsize r + 1
  | _ => 1

/-- Fuel sufficient for matching `r` against a text of length `n`: the depth of
the backtracking search is bounded by the pattern size times the text length
for the patterns occurring here (no quantifier in the catalog has a body that
can match the empty string). -/
def matchFuel (r : Regex) (n : Nat) : Nat := (rsize r + 2) * (2 * n + 8) + 64

/-- Fresh capture vector for `n` groups. -/
def initCaps (n : Nat) : Caps := List.replicate n none

/-- The observable part of a Python match object: `groups()`, a tuple holding
one entry per capturing group, `none` for a group that did not participate. -/
structure RMatch where
  groups : List (Option String)
deriving DecidableEq, Repr

/-- Convert capture slots to `groups()`. -/
def capsToGroups (caps : Caps) : List (Option String) :=
  caps.map (fun o => o.map (fun l => String.mk l))

/-- Python `re.search`: try a match at every position, leftmost first; at a
given position take the first match in backtracking order. -/
def searchLoop (fuel : Nat) (r : Regex) (ng : Nat) (s : List Char) : Option RMatch :=
  match rmatch fuel r s (initCaps ng) (fun c rest => some (c, rest)) with
  | some (c, _) => some (RMatch.mk (capsToGroups c))
  | none =>
    match s with
    | [] => none
    | _ :: tl => searchLoop fuel r ng tl

/-- Read a decimal number from the front of a pattern (for bounded repeats). -/
def readNum (cs : List Char) : Option (Nat × List Char) :=
  let rec go (acc : Nat) (l : List Char) : Nat × List Char :=
    match l with
    | c :: rest => if isDigitC c then go (acc * 10 + (c.toNat - 48)) rest else (acc, l)
    | [] => (acc, [])
  match cs with
  | c :: _ => if isDigitC c then some (go 0 cs) else none
  | [] => none

/-- `r` repeated exactly `n` times. -/
def repExact (r : Regex) (n : Nat) : Regex :=
  match n with
  | 0 => .eps
  | n + 1 => .seq r (repExact r n)

/-- Up to `n` further greedy repetitions of `r`, nested so that backtracking
explores longer matches first, as Python's bounded repeat does. -/
def repUpTo (r : Regex) (n : Nat) : Regex :=
  match n with
  | 0 => .eps
  | n + 1 => .opt false (.seq r (repUpTo r n))

/-- Escape sequences allowed outside a character class. -/
def escAtom (c : Char) : Option Regex :=
  if c == 'd' then some .dig
  else if c == 'w' then some .wrd
  else if c == 's' then some .spc
  else if c == 'S' then some (.cls [CItem.cnspace])
  else if c == 'n' then some (.ch '\n')
  else if c == 'r' then some (.ch '\r')
  else if c == 't' then some (.ch '\t')
  else if isAlphaC c || isDigitC c then none
  else some (.ch c)

/-- Escape sequences allowed inside a character class. -/
def escClassItem (c : Char) : Option CItem :=
  if c == 'd' then some CItem.cdigit
  else if c == 'w' then some CItem.cword
  else if c == 's' then some CItem.cspace
  else if c == 'S' then some CItem.cnspace
  else if c == 'n' then some (CItem.single '\n')
  else if c == 'r' then some (CItem.single '\r')
  else if c == 't' then some (CItem.single '\t')
  else if isAlphaC c || isDigitC c then none
  else some (CItem.single c)

/-- Translate the body of a character class (after `[`, up to `]`). -/
def pClass (cs : List Char) : Option (List CItem × List Char) :=
  match cs with
  | [] => none
  | ']' :: rest => some ([], rest)
  | '\\' :: c :: rest =>
    match escClassItem c with
    | none => none
    | some it => (pClass rest).map (fun p => (it :: p.1, p.2))
  | c :: '-' :: d :: rest =>
    if d == ']' then
      (pClass (d :: rest)).map (fun p => (CItem.single c :: CItem.single '-' :: p.1, p.2))
    else
      (pClass rest).map (fun p => (CItem.crange c d :: p.1, p.2))
  | c :: rest => (pClass rest).map (fun p => (CItem.single c :: p.1, p.2))

/-- The four levels of the pattern grammar, as a mode tag so that the whole
translator is one function structurally recursive on its fuel (and therefore
reduces inside the kernel). -/
inductive PMode where
  | mAlt
  | mSeq
  | mAtomQ
  | mAtomE
deriving DecidableEq, Repr

/-- Recursive-descent translation of a pattern string: alternation level,
concatenation level, quantified atom, plain atom. -/
def pRun (fuel : Nat) (mode : PMode) (g : Nat) (cs : List Char) :
    Option (Regex × Nat × List Char) :=
  match fuel with
  | 0 => none
  | fuel + 1 =>
    match mode with
    | .mAlt =>
      match pRun fuel .mSeq g cs with
      | none => none
      | some (a, g1, rest) =>
        match rest with
        | '|' :: rest2 =>
          match pRun fuel .mAlt g1 rest2 with
          | none => none
          | some (b, g2, rest3) => some (.alt a b, g2, rest3)
        | _ => some (a, g1, rest)
    | .mSeq =>
      match cs with
      | [] => some (.eps, g, [])
      | ')' :: _ => some (.eps, g, cs)
      | '|' :: _ => some (.eps, g, cs)
      | _ =>
        match pRun fuel .mAtomQ g cs with
        | none => none
        | some (a, g1, rest) =>
          match pRun fuel .mSeq g1 rest with
          | none => none
          | some (b, g2, rest2) => some (.seq a b, g2, rest2)
    | .mAtomQ =>
      match pRun fuel .mAtomE g cs with
      | none => none
      | some (a, g1, rest) =>
        match rest with
        | '*' :: '?' :: r2 => some (.star true a, g1, r2)
        | '*' :: r2 => some (.star false a, g1, r2)
        | '+' :: '?' :: r2 => some (.seq a (.star true a), g1, r2)
        | '+' :: r2 => some (.seq a (.star false a), g1, r2)
        | '?' :: '?' :: r2 => some (.opt true a, g1, r2)
        | '?' :: r2 => some (.opt false a, g1, r2)
        | '\x7b' :: r2 =>
          match readNum r2 with
          | none => none
          | some (m, r3) =>
            match r3 with
            | '\x7d' :: r4 => some (repExact a m, g1, r4)
            | ',' :: r4 =>
              match readNum r4 with
              | none => none
              | some (n, r5) =>
                match r5 with
                | '\x7d' :: r6 => some (.seq (repExact a m) (repUpTo a (n - m)), g1, r6)
                | _ => none
            | _ => none
        | _ => some (a, g1, rest)
    | .mAtomE =>
      match cs with
      | '(' :: '?' :: ':' :: rest =>
        match pRun fuel .mAlt g rest with
        | some (r, g1, ')' :: rest2) => some (r, g1, rest2)
        | _ => none
      | '(' :: '?' :: _ => none
      | '(' :: rest =>
        match pRun fuel .mAlt (g + 1) rest with
        | some (r, g1, ')' :: rest2) => some (.grp g r, g1, rest2)
        | _ => none
      | '[' :: '^' :: _ => none
      | '[' :: rest =>
        match pClass rest with
        | some (items, rest2) => some (.cls items, g, rest2)
        | none => none
      | '\\' :: c :: rest => (escAtom c).map (fun a => (a, g, rest))
      | '.' :: rest => some (.anych, g, rest)
      | '$' :: rest => some (.eol, g, rest)
      | '^' :: _ => none
      | c :: rest =>
        if c == '*' || c == '+' || c == '?' || c == ')' || c == '|' ||
            c == '\x7b' || c == '\x7d' then none
        else some (.ch c, g, rest)
      | [] => none

/-- Entry point of the translator: the alternation level. -/
def pAlt (fuel g : Nat) (cs : List Char) : Option (Regex × Nat × List Char) :=
  pRun fuel .mAlt g cs

/-- Compile one catalog pattern string to a regex and its group count;
`none` models a pattern `re` would reject (the extraction loop treats that
as an exception and moves on). -/
def compileRe (pat : String) : Option (Regex × Nat) :=
  match pAlt (2 * pat.length + 32) 0 pat.data with
  | some (r, g, []) => some (r, g)
  | _ => none

/-- `re.search(pattern, text, re.IGNORECASE | re.MULTILINE | re.DOTALL)` as the
parser invokes it, returning the groups of the match object or `none`. -/
def research (pat text : String) : Option RMatch :=
  match compileRe pat with
  | none => none
  | some (r, ng) => searchLoop (matchFuel r text.length) r ng text.data

/-- Right-nested sequence of regexes. -/
def rseqL : List Regex → Regex
  | [] => .eps
  | [r] => r
  | r :: rest => .seq r (rseqL rest)

/-- Ordered alternation; the empty list never matches. -/
def raltL : List Regex → Regex
  | [] => .cls []
  | [r] => r
  | r :: rest => .alt r (raltL rest)

/-- Literal word (matched case-insensitively by the engine). -/
def rchs (s : String) : Regex := rseqL (s.data.map Regex.ch)

/-- `\s+`, what `_strptime` substitutes for whitespace in a format. -/
def rwsPlus : Regex := .seq .spc (.star false .spc)

/-- The regex `_strptime` emits for `%d`: `(3[01]|[12]\d|0[1-9]|[1-9])`. -/
def rDay (i : Nat) : Regex :=
  .grp i (raltL
    [rseqL [.ch '3', .cls [CItem.single '0', CItem.single '1']],
     rseqL [.cls [CItem.single '1', CItem.single '2'], .dig],
     rseqL [.ch '0', .cls [CItem.crange '1' '9']],
     .cls [CItem.crange '1' '9']])

/-- The regex `_strptime` emits for `%m`: `(1[0-2]|0[1-9]|[1-9])`. -/
def rMon (i : Nat) : Regex :=
  .grp i (raltL
    [rseqL [.ch '1', .cls [CItem.crange '0' '2']],
     rseqL [.ch '0', .cls [CItem.crange '1' '9']],
     .cls [CItem.crange '1' '9']])

/-- The regex `_strptime` emits for `%Y`: `(\d\d\d\d)`. -/
def rYear (i : Nat) : Regex := .grp i (rseqL [.dig, .dig, .dig, .dig])

/-- Abbreviated month names in calendar order (`calendar.month_abbr`,
lower-cased), used for the `%b` index lookup. -/
def monthAbbrList : List String :=
  ["jan", "feb", "mar", "apr", "may", "jun", "jul", "aug", "sep", "oct", "nov", "dec"]

/-- Full month names in calendar order (`calendar.month_name`, lower-cased),
used for the `%B` index lookup. -/
def monthFullList : List String :=
  ["january", "february", "march", "april", "may", "june", "july", "august",
   "september", "october", "november", "december"]

/-- Full month names sorted longest first (stable), the alternation order
`_strptime.__seqToRE` produces for `%B`. -/
def monthFullSorted : List String :=
  ["september", "february", "november", "december", "january", "october",
   "august", "march", "april", "june", "july", "may"]

/-- Alternation of abbreviated month names for `%b` (all of length three, so
the longest-first stable sort keeps calendar order). -/
def rMonAbbr (i : Nat) : Regex := .grp i (raltL (monthAbbrList.map rchs))

/-- Alternation of full month names for `%B`. -/
def rMonFull (i : Nat) : Regex := .grp i (raltL (monthFullSorted.map rchs))

/-- What each capture of a format regex denotes. -/
inductive CapKind where
  | ckDay
  | ckMonNum
  | ckMonAbbr
  | ckMonFull
  | ckYear
deriving DecidableEq, Repr

/-- The nine entries of the source's `DATE_FORMATS` list, by format string. -/
inductive Fmt where
  | fmt_d_b_Y
  | fmt_d_m_Y_slash
  | fmt_d_m_Y_dash
  | fmt_d_b_Y_dash
  | fmt_B_d_Y
  | fmt_d_B_Y
  | fmt_Y_m_d
  | fmt_m_d_Y_slash
  | fmt_d_m_Y_dot
deriving DecidableEq, Repr

/-- The regular expression `_strptime` compiles for each format, together with
the meaning of its captures in group order. -/
def fmtSpec : Fmt → Regex × List CapKind
  | .fmt_d_b_Y =>
    (rseqL [rDay 0, rwsPlus, rMonAbbr 1, rwsPlus, rYear 2],
     [CapKind.ckDay, CapKind.ckMonAbbr, CapKind.ckYear])
  | .fmt_d_m_Y_slash =>
    (rseqL [rDay 0, .ch '/', rMon 1, .ch '/', rYear 2],
     [CapKind.ckDay, CapKind.ckMonNum, CapKind.ckYear])
  | .fmt_d_m_Y_dash =>
    (rseqL [rDay 0, .ch '-', rMon 1, .ch '-', rYear 2],
     [CapKind.ckDay, CapKind.ckMonNum, CapKind.ckYear])
  | .fmt_d_b_Y_dash =>
    (rseqL [rDay 0, .ch '-', rMonAbbr 1, .ch '-', rYear 2],
     [CapKind.ckDay, CapKind.ckMonAbbr, CapKind.ckYear])
  | .fmt_B_d_Y =>
    (rseqL [rMonFull 0, rwsPlus, rDay 1, .ch ',', rwsPlus, rYear 2],
     [CapKind.ckMonFull, CapKind.ckDay, CapKind.ckYear])
  | .fmt_d_B_Y =>
    (rseqL [rDay 0, rwsPlus, rMonFull 1, rwsPlus, rYear 2],
     [CapKind.ckDay, CapKind.ckMonFull, CapKind.ckYear])
  | .fmt_Y_m_d =>
    (rseqL [rYear 0, .ch '-', rMon 1, .ch '-', rDay 2],
     [CapKind.ckYear, CapKind.ckMonNum, CapKind.ckDay])
  | .fmt_m_d_Y_slash =>
    (rseqL [rMon 0, .ch '/', rDay 1, .ch '/', rYear 2],
     [CapKind.ckMonNum, CapKind.ckDay, CapKind.ckYear])
  | .fmt_d_m_Y_dot =>
    (rseqL [rDay 0, .ch '.', rMon 1, .ch '.', rYear 2],
     [CapKind.ckDay, CapKind.ckMonNum, CapKind.ckYear])

/-- The source's `DATE_FORMATS` list, in order. -/
def DATE_FORMATS : List Fmt :=
  [.fmt_d_b_Y, .fmt_d_m_Y_slash, .fmt_d_m_Y_dash, .fmt_d_b_Y_dash, .fmt_B_d_Y,
   .fmt_d_B_Y, .fmt_Y_m_d, .fmt_m_d_Y_slash, .fmt_d_m_Y_dot]

/-- Numeric value of a digit-only capture. -/
def natOfChars : List Char → Nat → Nat
  | [], acc => acc
  | c :: rest, acc => natOfChars rest (acc * 10 + (c.toNat - 48))

/-- Numeric value of a digit-only capture string. -/
def natOfStr (s : String) : Nat := natOfChars s.data 0

/-- Position of `s` in `l`, one-based, as `list.index` with the leading empty
entry of `calendar.month_abbr` / `month_name` accounted for. -/
def monthIndex (l : List String) (s : String) : Option Nat :=
  match l with
  | [] => none
  | x :: rest => if x == s then some 1 else (monthIndex rest s).map (· + 1)

/-- Pick the capture of the given kind (each kind occurs at most once). -/
def findCap : List CapKind → List (Option String) → CapKind → Option String
  | [], _, _ => none
  | _, [], _ => none
  | k0 :: ks, g :: gs, k => if k0 == k then g else findCap ks gs k

/-- Assemble the parsed date from the captures, as `_strptime` computes
`year`, `month`, `day` from the named groups. -/
def buildPDate (kinds : List CapKind) (gs : List (Option String)) : Option PDate :=
  match findCap kinds gs CapKind.ckYear with
  | none => none
  | some ys =>
    match findCap kinds gs CapKind.ckDay with
    | none => none
    | some ds =>
      let mOpt : Option Nat :=
        match findCap kinds gs CapKind.ckMonNum with
        | some ms => some (natOfStr ms)
        | none =>
          match findCap kinds gs CapKind.ckMonAbbr with
          | some ms => monthIndex monthAbbrList (lowerStr ms)
          | none =>
            match findCap kinds gs CapKind.ckMonFull with
            | some ms => monthIndex monthFullList (lowerStr ms)
            | none => none
      match mOpt with
      | none => none
      | some m => some (PDate.mk (natOfStr ys) m (natOfStr ds))

/-- `datetime.strptime(s, fmt)` for one of the nine catalog formats: the
compiled regex must match at position 0, the whole string must be consumed
("unconverted data remains" otherwise), and the assembled date must satisfy
the `datetime` constructor. -/
def strptimeFmt (f : Fmt) (s : String) : Option PDate :=
  let spec := fmtSpec f
  match rmatch (matchFuel spec.1 s.length) spec.1 s.data (initCaps spec.2.length)
      (fun c rest => some (c, rest)) with
  | none => none
  | some (caps, rest) =>
    if rest.isEmpty then
      match buildPDate spec.2 (capsToGroups caps) with
      | none => none
      | some dt => if dateValid dt then some dt else none
    else none

/-- `datetime.strptime(s, '%Y-%m-%d')`, the parse used by `_is_valid_date` and
the chronology check in `analyze_pdf`. -/
def strptimeISO (s : String) : Option PDate := strptimeFmt Fmt.fmt_Y_m_d s

/-- The `for fmt in DATE_FORMATS` loop of `_clean_and_convert_date`: return
the ISO rendering of the first format that parses. -/
def tryDateFormats : List Fmt → String → Option String
  | [], _ => none
  | f :: rest, s =>
    match strptimeFmt f s with
    | some dt => some (renderISO dt)
    | none => tryDateFormats rest s

/-- `_clean_and_convert_date(date_str, date_format=None)`.  A falsy input
(`None` or the empty string) yields `None`; a provided specific format is
tried first; then the fixed format list; every failure path returns `None`
rather than raising. -/
def clean_and_convert_date (dateStr : Option String) (fmtArg : Option Fmt) : Option String :=
  match dateStr with
  | none => none
  | some s =>
    if s == "" then none
    else
      match fmtArg with
      | some f =>
        match strptimeFmt f s with
        | some dt => some (renderISO dt)
        | none => tryDateFormats DATE_FORMATS s
      | none => tryDateFormats DATE_FORMATS s

/-- Value of a Python float as far as the claims observe it: an exact decimal
`(-1)^neg * mant * 10^exp` in canonical form (`mant` not divisible by ten,
zero represented as `finite false 0 0`), a signed infinity, or NaN.  Canonical
forms are unique, so value equality is structural equality. -/
inductive PyFloat where
  | finite (neg : Bool) (mant : Nat) (exp : Int)
  | infty (neg : Bool)
  | nan
deriving DecidableEq, Repr

/-- Strip factors of ten from `m` (the fuel only bounds the recursion; `m`
itself is always enough). -/
def stripZeros : Nat → Nat → Nat × Nat
  | 0, m => (m, 0)
  | fuel + 1, m =>
    if m != 0 && m % 10 == 0 then
      let r := stripZeros fuel (m / 10)
      (r.1, r.2 + 1)
    else (m, 0)

/-- Canonical finite float value `(-1)^neg * mant * 10^exp`. -/
def mkFinite (neg : Bool) (mant : Nat) (exp : Int) : PyFloat :=
  if mant == 0 then PyFloat.finite false 0 0
  else
    let r := stripZeros mant mant
    PyFloat.finite neg r.1 (exp + (r.2 : Int))

/-- `re.sub(r'[₹$,\s]', '', s)`: drop currency glyphs, commas and whitespace
anywhere in the string. -/
def stripAmount (s : String) : String :=
  String.mk (s.data.filter (fun c => !(c == '₹' || c == '$' || c == ',' || isSpaceC c)))

/-- Maximal run of digits allowing single underscores between digits, as the
Python numeric literal grammar used by `float` accepts. -/
def readDigs : List Char → List Char → (List Char × List Char)
  | acc, [] => (acc, [])
  | acc, c :: rest =>
    if isDigitC c then readDigs (acc ++ [c]) rest
    else if c == '_' then
      match rest with
      | c2 :: rest2 =>
        if isDigitC c2 then readDigs (acc ++ [c2]) rest2 else (acc, c :: rest)
      | [] => (acc, [c])
    else (acc, c :: rest)

/-- Decimal value `digits / 1`. -/
def natValOf (l : List Char) : Nat := natOfChars l 0

/-- Parse the body after an optional sign: `inf`, `infinity`, `nan`, or a
decimal numeral with optional fraction and exponent.  The whole input must be
consumed. -/
def pyFloatBody (neg : Bool) (cs : List Char) : Option PyFloat :=
  let low := cs.map lowerChar
  if low == "inf".data || low == "infinity".data then some (PyFloat.infty neg)
  else if low == "nan".data then some PyFloat.nan
  else
    let ip := readDigs [] cs
    let intDigs := ip.1
    let afterInt := ip.2
    let fp :=
      match afterInt with
      | '.' :: rest => let q := readDigs [] rest; (q.1, q.2, true)
      | _ => (([] : List Char), afterInt, false)
    let fracDigs := fp.1
    let afterFrac := fp.2.1
    if intDigs.isEmpty && fracDigs.isEmpty then none
    else
      let mant := natValOf (intDigs ++ fracDigs)
      let baseExp : Int := -(fracDigs.length : Int)
      let finishExp : List Char → Option PyFloat := fun l =>
        match l with
        | [] => some (mkFinite neg mant baseExp)
        | e :: rest =>
          if e == 'e' || e == 'E' then
            let sp :=
              match rest with
              | '+' :: r2 => (false, r2)
              | '-' :: r2 => (true, r2)
              | _ => (false, rest)
            let dp := readDigs [] sp.2
            if dp.1.isEmpty || !dp.2.isEmpty then none
            else
              let ev : Int := natValOf dp.1
              some (mkFinite neg mant (baseExp + (if sp.1 then -ev else ev)))
          else none
      finishExp afterFrac

/-- Python `float(s)` on the stripped remainder: optional sign, then `inf`,
`nan`, or a decimal numeral; anything else raises `ValueError`, modelled as
`none`.  Binary rounding and overflow to infinity are abstracted by the exact
value. -/
def pyFloatOfStr (s : String) : Option PyFloat :=
  match s.data with
  | '+' :: rest => pyFloatBody false rest
  | '-' :: rest => pyFloatBody true rest
  | cs => pyFloatBody false cs

/-- `_clean_and_convert_amount(amount_str)`: falsy input yields `None`;
otherwise strip `[₹$,\s]` and parse as a float, with `ValueError` mapped to
`None`. -/
def clean_and_convert_amount (amountStr : Option String) : Option PyFloat :=
  match amountStr with
  | none => none
  | some s => if s == "" then none else pyFloatOfStr (stripAmount s)

/-- `_is_valid_date(date_str, statement_date_str)` evaluated when the current
date is `now`.  `(current_date - parsed_date).days` equals
`ordD now - ordD parsed` as an integer for every time of day, since
`parsed_date` is a midnight value. -/
def is_valid_date (now : PDate) (dateStr : Option String) (stmtStr : Option String) : Bool :=
  match dateStr with
  | none => false
  | some s =>
    if s == "" then false
    else
      match strptimeISO s with
      | none => false
      | some p =>
        if now.y + 2 < p.y then false
        else if (550 : Int) < (ordD now : Int) - (ordD p : Int) then false
        else
          match stmtStr with
          | none => true
          | some t =>
            if t == "" then true
            else
              match strptimeISO t with
              | none => false
              | some st => !(decide (ordD p < ordD st))

/-- The per-institution strategy lists: one ordered pattern list per semantic
field, exactly the keys every entry of `COMPREHENSIVE_BANK_PATTERNS` carries. -/
structure BankPatterns where
  card_number : List String
  statement_date : List String
  total_due : List String
  due_date : List String
  min_due : List String
  credit_limit : List String
  available_limit : List String

/-- The `sbi` entry of `COMPREHENSIVE_BANK_PATTERNS`. -/
def sbiPatterns : BankPatterns :=
  BankPatterns.mk
    ["XXXX XXXX XXXX (\\w+)",
     "XXXX XXXX XXXX (\\w\x7b2,4\x7d)",
     "Credit Card Number.*?XXXX XXXX XXXX (\\w+)",
     "XXXX\\s+XXXX\\s+XXXX\\s+XX(\\d\x7b2,4\x7d)"]
    ["Statement\\s*Date\\s*[:\\-]?\\s*(\\d\x7b2\x7d\\s+[A-Za-z]\x7b3\x7d\\s+\\d\x7b4\x7d)",
     "Statement\\s*Date\\s*[:\\-]?\\s*(\\d\x7b1,2\x7d\\s+[A-Za-z]+\\s+\\d\x7b4\x7d)",
     "Statement.*?Date.*?(\\d\x7b2\x7d/\\d\x7b2\x7d/\\d\x7b4\x7d)",
     "Statement.*?(\\d\x7b2\x7d-\\d\x7b2\x7d-\\d\x7b4\x7d)"]
    ["Total Payment Due\\s*[:\\-]?\\s*₹?\\s*([\\d,]+\\.\\d\x7b2\x7d)",
     "Total Amount Due\\s*[:\\-]?\\s*₹?\\s*([\\d,]+\\.\\d\x7b2\x7d)",
     "\\*Total Amount Due.*?([\\d,]+\\.\\d\x7b2\x7d)"]
    ["Payment\\s+Due\\s+Date[\\s:\\-.]*?(?:\\r?\\n|\\s)+.*?([0-3]?\\d\\s+[A-Za-z]\x7b3\x7d\\s+\\d\x7b4\x7d)",
     "Payment\\s+Due\\s+Date[\\s:\\-.]*?(?:\\r?\\n|\\s)+.*?(\\d\x7b2\x7d/\\d\x7b2\x7d/\\d\x7b4\x7d)",
     "Payment\\s+Due\\s+Date[\\s:\\-.]*?(?:\\r?\\n|\\s)+.*?(\\d\x7b2\x7d-[A-Za-z]\x7b3\x7d-\\d\x7b4\x7d)",
     "(?:Total\\s+)?Payment\\s+Due\\s+Date\\s*[:\\-]?\\s*([0-3]?\\d\\s+[A-Za-z]\x7b3\x7d\\s+\\d\x7b4\x7d)",
     "Payment\\s+Due\\s+Date\\s*[:\\-]?\\s*(\\d\x7b2\x7d-[A-Za-z]\x7b3\x7d-\\d\x7b4\x7d)",
     "Payment\\s+Due\\s+Date\\s*[:\\-]?\\s*(\\d\x7b2\x7d/\\d\x7b2\x7d/\\d\x7b4\x7d)"]
    ["Minimum\\s+(?:Amount|Payment)\\s+Due\\s*[:\\-]?\\s*₹?\\s*([\\d,]+\\.\\d\x7b2\x7d)",
     "\\*\\*Minimum Amount Due.*?([\\d,]+\\.\\d\x7b2\x7d)"]
    ["Credit\\s+Limit\\s*\\(.*?\\)\\s*[:\\-]?\\s*₹?\\s*([\\d,]+\\.\\d\x7b2\x7d)",
     "Credit\\s+Limit.*?₹?\\s*([\\d,]+\\.\\d\x7b2\x7d)"]
    ["Available\\s+Credit\\s+Limit\\s*[:\\-]?\\s*₹?\\s*([\\d,]+\\.\\d\x7b2\x7d)",
     "Available.*?Limit.*?₹?\\s*([\\d,]+\\.\\d\x7b2\x7d)"]

/-- The `indusind` entry of `COMPREHENSIVE_BANK_PATTERNS`. -/
def indusindPatterns : BankPatterns :=
  BankPatterns.mk
    ["Credit Card No\\. (\\d\x7b4\x7d)XXXXXXXX(\\d\x7b4\x7d)",
     "Credit Card No\\.\\s+\\d\x7b4\x7dX+(\\d\x7b4\x7d)",
     "Card.*?No.*?(\\d\x7b4\x7d)XXXXXXXX(\\d\x7b4\x7d)",
     "(\\d\x7b4\x7d)\\*+(\\d\x7b4\x7d)"]
    ["Statement Date\\s+(\\d\x7b2\x7d/\\d\x7b2\x7d/\\d\x7b4\x7d)",
     "Statement.*?Date.*?(\\d\x7b2\x7d/\\d\x7b2\x7d/\\d\x7b4\x7d)",
     "Statement.*?(\\d\x7b2\x7d-\\d\x7b2\x7d-\\d\x7b4\x7d)"]
    ["Total Amount Due[\\s\\S]*?([\\d,]+\\.\\d\x7b2\x7d) DR",
     "Total Amount Due\\s+([\\d,]+\\.\\d\x7b2\x7d)\\s+DR",
     "Total.*?Due.*?([\\d,]+\\.\\d\x7b2\x7d)",
     "Amount Due.*?([\\d,]+\\.\\d\x7b2\x7d)"]
    ["Payment Due Date\\s+(\\d\x7b2\x7d/\\d\x7b2\x7d/\\d\x7b4\x7d)",
     "Due Date.*?(\\d\x7b2\x7d/\\d\x7b2\x7d/\\d\x7b4\x7d)",
     "Pay.*?by.*?(\\d\x7b2\x7d/\\d\x7b2\x7d/\\d\x7b4\x7d)"]
    ["Minimum Amount Due\\s+([\\d,]+\\.\\d\x7b2\x7d)",
     "Min.*?Due.*?([\\d,]+\\.\\d\x7b2\x7d)",
     "MAD.*?([\\d,]+\\.\\d\x7b2\x7d)"]
    ["Credit.*?Credit Limit\\s+([\\d,]+\\.\\d\x7b2\x7d)",
     "Total.*?Limit.*?([\\d,]+\\.\\d\x7b2\x7d)",
     "Credit Limit.*?([\\d,]+\\.\\d\x7b2\x7d)"]
    ["Available Credit Limit\\s+([\\d,]+\\.\\d\x7b2\x7d)",
     "Available.*?Limit.*?([\\d,]+\\.\\d\x7b2\x7d)"]

/-- The `axis` entry of `COMPREHENSIVE_BANK_PATTERNS`. -/
def axisPatterns : BankPatterns :=
  BankPatterns.mk
    ["(\\d\x7b6\x7d)\\*+(\\d\x7b4\x7d)",
     "(\\d\x7b4\x7d)\\*+(\\d\x7b4\x7d)",
     "Card.*?(\\d\x7b6\x7d)\\*+(\\d\x7b4\x7d)",
     "Neo.*?(\\d\x7b6\x7d)\\*+(\\d\x7b4\x7d)"]
    ["Statement\\s*Date\\s*[:\\-]?\\s*(\\d\x7b2\x7d/\\d\x7b2\x7d/\\d\x7b4\x7d)",
     "Generation\\s*Date\\s*[:\\-]?\\s*(\\d\x7b2\x7d/\\d\x7b2\x7d/\\d\x7b4\x7d)"]
    ["([\\d,]+\\.\\d\x7b2\x7d) Dr\\s+([\\d,]+\\.\\d\x7b2\x7d) Dr",
     "Total Payment Due.*?([\\d,]+\\.\\d\x7b2\x7d)",
     "Total.*?Due.*?([\\d,]+\\.\\d\x7b2\x7d) Dr",
     "Amount Due.*?([\\d,]+\\.\\d\x7b2\x7d)"]
    ["(\\d\x7b2\x7d/\\d\x7b2\x7d/\\d\x7b4\x7d)\\s+(\\d\x7b2\x7d/\\d\x7b2\x7d/\\d\x7b4\x7d)\\s*$",
     "Payment Due Date.*?(\\d\x7b2\x7d/\\d\x7b2\x7d/\\d\x7b4\x7d)",
     "Due.*?(\\d\x7b2\x7d/\\d\x7b2\x7d/\\d\x7b4\x7d)"]
    ["([\\d,]+\\.\\d\x7b2\x7d) Dr\\s+([\\d,]+\\.\\d\x7b2\x7d) Dr",
     "Minimum Payment Due.*?([\\d,]+\\.\\d\x7b2\x7d)",
     "Min.*?Due.*?([\\d,]+\\.\\d\x7b2\x7d)"]
    ["Credit Limit\\s+([\\d,]+\\.\\d\x7b2\x7d)",
     "Total.*?Limit.*?([\\d,]+\\.\\d\x7b2\x7d)"]
    ["Available Credit Limit\\s+([\\d,]+\\.\\d\x7b2\x7d)",
     "Available.*?Limit.*?([\\d,]+\\.\\d\x7b2\x7d)"]

/-- The `icici` entry of `COMPREHENSIVE_BANK_PATTERNS`. -/
def iciciPatterns : BankPatterns :=
  BankPatterns.mk
    ["(\\d\x7b4\x7d)XXXXXXXX(\\d\x7b4\x7d)",
     "(\\d\x7b4\x7d)\\*+(\\d\x7b4\x7d)",
     "Card.*?(\\d\x7b4\x7d)XXXXXXXX(\\d\x7b4\x7d)",
     "Credit Card.*?(\\d\x7b4\x7d)\\*+(\\d\x7b4\x7d)"]
    ["SSTTAATTEEMMEENNTT DDAATTEE\\s+(\\w+ \\d\x7b1,2\x7d, \\d\x7b4\x7d)",
     "Statement.*?Date.*?(\\w+ \\d\x7b1,2\x7d, \\d\x7b4\x7d)",
     "Statement.*?(\\d\x7b2\x7d/\\d\x7b2\x7d/\\d\x7b4\x7d)",
     "STATEMENT.*?(\\d\x7b2\x7d/\\d\x7b2\x7d/\\d\x7b4\x7d)"]
    ["Total Amount due\\s+-\\s+`([\\d,]+\\.\\d\x7b2\x7d)",
     "Total.*?due.*?`([\\d,]+\\.\\d\x7b2\x7d)",
     "Total Amount.*?([\\d,]+\\.\\d\x7b2\x7d)",
     "Amount due.*?([\\d,]+\\.\\d\x7b2\x7d)",
     "TOTAL\\s+([\\d,]+\\.\\d\x7b2\x7d)"]
    ["PPAAYYMMEENNTT DDUUEE DDAATTEE\\s+(\\w+ \\d\x7b1,2\x7d, \\d\x7b4\x7d)",
     "Payment.*?Due.*?Date.*?(\\w+ \\d\x7b1,2\x7d, \\d\x7b4\x7d)",
     "Due Date.*?(\\d\x7b2\x7d/\\d\x7b2\x7d/\\d\x7b4\x7d)",
     "PAYMENT.*?DUE.*?(\\d\x7b2\x7d/\\d\x7b2\x7d/\\d\x7b4\x7d)"]
    ["Minimum Amount due.*?`([\\d,]+\\.\\d\x7b2\x7d)",
     "Minimum.*?due.*?([\\d,]+\\.\\d\x7b2\x7d)",
     "Min.*?Amount.*?([\\d,]+\\.\\d\x7b2\x7d)"]
    ["Credit Limit \\(Including cash\\).*?`([\\d,]+\\.\\d\x7b2\x7d)",
     "Credit Limit.*?`([\\d,]+\\.\\d\x7b2\x7d)",
     "Total.*?Limit.*?([\\d,]+\\.\\d\x7b2\x7d)"]
    ["Available Credit \\(Including cash\\).*?`([\\d,]+\\.\\d\x7b2\x7d)",
     "Available.*?Credit.*?`([\\d,]+\\.\\d\x7b2\x7d)",
     "Available.*?([\\d,]+\\.\\d\x7b2\x7d)"]

/-- The `kotak` entry of `COMPREHENSIVE_BANK_PATTERNS`. -/
def kotakPatterns : BankPatterns :=
  BankPatterns.mk
    ["(\\d\x7b4\x7d)XXXXXXXX(\\d\x7b4\x7d)",
     "(\\d\x7b4\x7d)\\*+(\\d\x7b4\x7d)",
     "Card.*?(\\d\x7b4\x7d)XXXXXXXX(\\d\x7b4\x7d)"]
    ["Statement Date (\\d\x7b2\x7d-\\w\x7b3\x7d-\\d\x7b4\x7d)",
     "Statement.*?Date.*?(\\d\x7b2\x7d-\\w\x7b3\x7d-\\d\x7b4\x7d)",
     "Statement.*?(\\d\x7b2\x7d/\\d\x7b2\x7d/\\d\x7b4\x7d)"]
    ["Total Amount Due \\(TAD\\) Rs\\.([\\d,]+\\.\\d\x7b2\x7d)",
     "Total.*?Due.*?Rs\\.([\\d,]+\\.\\d\x7b2\x7d)",
     "TAD.*?Rs\\.([\\d,]+\\.\\d\x7b2\x7d)",
     "Amount Due.*?([\\d,]+\\.\\d\x7b2\x7d)"]
    ["Remember to pay by (\\d\x7b2\x7d-\\w\x7b3\x7d-\\d\x7b4\x7d)",
     "Pay by (\\d\x7b2\x7d-\\w\x7b3\x7d-\\d\x7b4\x7d)",
     "Due.*?(\\d\x7b2\x7d-\\w\x7b3\x7d-\\d\x7b4\x7d)",
     "Payment.*?(\\d\x7b2\x7d/\\d\x7b2\x7d/\\d\x7b4\x7d)"]
    ["Minimum Amount Due \\(MAD\\) Rs\\.([\\d,]+\\.\\d\x7b2\x7d)",
     "MAD.*?Rs\\.([\\d,]+\\.\\d\x7b2\x7d)",
     "Minimum.*?Rs\\.([\\d,]+\\.\\d\x7b2\x7d)"]
    ["Total Credit Limit \\(incl\\.cash\\): Rs\\.([\\d,]+\\.\\d\x7b2\x7d)",
     "Credit Limit.*?Rs\\.([\\d,]+\\.\\d\x7b2\x7d)",
     "Total.*?Limit.*?Rs\\.([\\d,]+\\.\\d\x7b2\x7d)"]
    ["Available Credit Limit: Rs\\.([\\d,]+\\.\\d\x7b2\x7d)",
     "Available.*?Rs\\.([\\d,]+\\.\\d\x7b2\x7d)",
     "Available.*?Limit.*?([\\d,]+\\.\\d\x7b2\x7d)"]

/-- The `rbl` entry of `COMPREHENSIVE_BANK_PATTERNS`. -/
def rblPatterns : BankPatterns :=
  BankPatterns.mk
    ["XXXXXXXXXXXXXX(\\d\x7b2\x7d)",
     "(\\d\x7b4\x7d)\\*+(\\d\x7b4\x7d)",
     "Card.*?(\\d\x7b4\x7d)\\*+(\\d\x7b4\x7d)",
     "XXXX.*?(\\d\x7b4\x7d)"]
    ["Statement Date\\s+(\\d\x7b2\x7d-\\d\x7b2\x7d-\\d\x7b4\x7d)",
     "Statement.*?Date.*?(\\d\x7b2\x7d-\\d\x7b2\x7d-\\d\x7b4\x7d)",
     "Statement.*?(\\d\x7b2\x7d/\\d\x7b2\x7d/\\d\x7b4\x7d)"]
    ["Total Amount Due\\s+([\\d,]+\\.\\d\x7b2\x7d)",
     "Total.*?Due.*?([\\d,]+\\.\\d\x7b2\x7d)",
     "Amount Due.*?([\\d,]+\\.\\d\x7b2\x7d)"]
    ["Payment Due Date\\s+(\\d\x7b2\x7d \\w\x7b3\x7d \\d\x7b4\x7d)",
     "Due Date.*?(\\d\x7b2\x7d \\w\x7b3\x7d \\d\x7b4\x7d)",
     "Payment.*?(\\d\x7b2\x7d/\\d\x7b2\x7d/\\d\x7b4\x7d)"]
    ["Min\\. Amt\\. Due\\s+([\\d,]+\\.\\d\x7b2\x7d)",
     "Minimum.*?Due.*?([\\d,]+\\.\\d\x7b2\x7d)",
     "Min.*?Due.*?([\\d,]+\\.\\d\x7b2\x7d)"]
    ["Total Credit Limit\\s+([\\d,]+\\.\\d\x7b2\x7d)",
     "Credit Limit.*?([\\d,]+\\.\\d\x7b2\x7d)",
     "Total.*?Limit.*?([\\d,]+\\.\\d\x7b2\x7d)"]
    ["Available Credit Limit\\s+([\\d,]+\\.\\d\x7b2\x7d)",
     "Available.*?Limit.*?([\\d,]+\\.\\d\x7b2\x7d)"]

/-- The `hdfc` entry of `COMPREHENSIVE_BANK_PATTERNS`. -/
def hdfcPatterns : BankPatterns :=
  BankPatterns.mk
    ["(\\d\x7b4\x7d)\\s*\\*+\\s*(\\d\x7b4\x7d)",
     "(\\d\x7b4\x7d)XXXXXXXX(\\d\x7b4\x7d)",
     "Card.*?(\\d\x7b4\x7d)\\*+(\\d\x7b4\x7d)",
     "HDFC.*?(\\d\x7b4\x7d)\\*+(\\d\x7b4\x7d)"]
    ["Statement Date\\s*:?\\s*(\\d\x7b2\x7d/\\d\x7b2\x7d/\\d\x7b4\x7d)",
     "Statement.*?(\\d\x7b2\x7d-\\d\x7b2\x7d-\\d\x7b4\x7d)",
     "Date.*?(\\d\x7b2\x7d/\\d\x7b2\x7d/\\d\x7b4\x7d)"]
    ["Total Amount Due\\s*:?\\s*Rs\\.?\\s*([\\d,]+\\.\\d\x7b2\x7d)",
     "Total.*?Due.*?Rs\\.?\\s*([\\d,]+\\.\\d\x7b2\x7d)",
     "Amount Due.*?([\\d,]+\\.\\d\x7b2\x7d)"]
    ["Payment Due Date\\s*:?\\s*(\\d\x7b2\x7d/\\d\x7b2\x7d/\\d\x7b4\x7d)",
     "Due Date.*?(\\d\x7b2\x7d/\\d\x7b2\x7d/\\d\x7b4\x7d)",
     "Pay.*?by.*?(\\d\x7b2\x7d/\\d\x7b2\x7d/\\d\x7b4\x7d)"]
    ["Minimum Amount Due\\s*:?\\s*Rs\\.?\\s*([\\d,]+\\.\\d\x7b2\x7d)",
     "Min.*?Due.*?Rs\\.?\\s*([\\d,]+\\.\\d\x7b2\x7d)",
     "Minimum.*?([\\d,]+\\.\\d\x7b2\x7d)"]
    ["Credit Limit\\s*:?\\s*Rs\\.?\\s*([\\d,]+\\.\\d\x7b2\x7d)",
     "Total.*?Limit.*?Rs\\.?\\s*([\\d,]+\\.\\d\x7b2\x7d)"]
    ["Available Credit\\s*:?\\s*Rs\\.?\\s*([\\d,]+\\.\\d\x7b2\x7d)",
     "Available.*?Rs\\.?\\s*([\\d,]+\\.\\d\x7b2\x7d)"]

/-- The `bob` entry of `COMPREHENSIVE_BANK_PATTERNS`. -/
def bobPatterns : BankPatterns :=
  BankPatterns.mk
    ["(\\d\x7b4\x7d)\\s*\\*+\\s*(\\d\x7b4\x7d)",
     "(\\d\x7b4\x7d)XXXXXXXX(\\d\x7b4\x7d)",
     "Card.*?(\\d\x7b4\x7d)\\*+(\\d\x7b4\x7d)"]
    ["Statement Date\\s*:?\\s*(\\d\x7b2\x7d/\\d\x7b2\x7d/\\d\x7b4\x7d)",
     "Statement.*?(\\d\x7b2\x7d-\\d\x7b2\x7d-\\d\x7b4\x7d)",
     "Date.*?(\\d\x7b2\x7d/\\d\x7b2\x7d/\\d\x7b4\x7d)"]
    ["Total Amount Due\\s*:?\\s*([\\d,]+\\.\\d\x7b2\x7d)",
     "Total.*?Due.*?([\\d,]+\\.\\d\x7b2\x7d)",
     "Amount Due.*?([\\d,]+\\.\\d\x7b2\x7d)"]
    ["Payment Due Date\\s*:?\\s*(\\d\x7b2\x7d/\\d\x7b2\x7d/\\d\x7b4\x7d)",
     "Due Date.*?(\\d\x7b2\x7d/\\d\x7b2\x7d/\\d\x7b4\x7d)",
     "Pay.*?by.*?(\\d\x7b2\x7d/\\d\x7b2\x7d/\\d\x7b4\x7d)"]
    ["Minimum Amount Due\\s*:?\\s*([\\d,]+\\.\\d\x7b2\x7d)",
     "Min.*?Due.*?([\\d,]+\\.\\d\x7b2\x7d)",
     "Minimum.*?([\\d,]+\\.\\d\x7b2\x7d)"]
    ["Credit Limit\\s*:?\\s*([\\d,]+\\.\\d\x7b2\x7d)",
     "Total.*?Limit.*?([\\d,]+\\.\\d\x7b2\x7d)"]
    ["Available Credit\\s*:?\\s*([\\d,]+\\.\\d\x7b2\x7d)",
     "Available.*?([\\d,]+\\.\\d\x7b2\x7d)"]

/-- `COMPREHENSIVE_BANK_PATTERNS.get(key)`: the read-only pattern catalog,
keyed by lower-cased institution identifier. -/
def COMPREHENSIVE_BANK_PATTERNS (key : String) : Option BankPatterns :=
  if key == "sbi" then some sbiPatterns
  else if key == "indusind" then some indusindPatterns
  else if key == "axis" then some axisPatterns
  else if key == "icici" then some iciciPatterns
  else if key == "kotak" then some kotakPatterns
  else if key == "rbl" then some rblPatterns
  else if key == "hdfc" then some hdfcPatterns
  else if key == "bob" then some bobPatterns
  else none

/-- `_extract_with_multiple_patterns(text, patterns)`: try the patterns in
order, return the first match; a pattern that raises (fails to compile) is
skipped, which `research` already folds into `none`. -/
def extract_with_multiple_patterns (text : String) : List String → Option RMatch
  | [] => none
  | p :: rest =>
    match research p text with
    | some m => some m
    | none => extract_with_multiple_patterns text rest

/-- The result dictionary of `parse_pdf_content`.  Every field is a key that
may be absent (`none`); dates and `card_last4` store `str | None`, amounts
store `float | None`, so a present key with Python value `None` is
`some none`. -/
structure ParsedData where
  bank_name : Option String
  card_last4 : Option (Option String)
  statement_date : Option (Option String)
  due_date : Option (Option String)
  total_due : Option (Option PyFloat)
  min_due : Option (Option PyFloat)
  credit_limit : Option (Option PyFloat)
  available_limit : Option (Option PyFloat)
deriving DecidableEq, Repr

/-- The empty dictionary `{}` returned for an unknown institution. -/
def emptyParsed : ParsedData :=
  ParsedData.mk none none none none none none none none

/-- Group selection for the non-card fields:
`groups[0] if len(groups) == 1 else groups[-1]`.  A match with no groups makes
the Python expression raise `IndexError`; that case is unreachable because
every catalog pattern carries at least one group (`catalog_groups_ge_one`
below), and is mapped to `none` here. -/
def pickGroup (gs : List (Option String)) : Option String :=
  if gs.length == 1 then gs.head?.join else gs.getLast?.join

/-- The `card_number` branch of `parse_pdf_content`: one group stores that
group, several groups store the last one, and a groupless match stores
nothing. -/
def cardField : Option RMatch → Option (Option String)
  | none => none
  | some m =>
    if m.groups.length == 1 then some m.groups.head?.join
    else if 1 < m.groups.length then some m.groups.getLast?.join
    else none

/-- The `statement_date` branch: `match.group(1)` normalized by
`_clean_and_convert_date`. -/
def stmtField : Option RMatch → Option (Option String)
  | none => none
  | some m => some (clean_and_convert_date m.groups.head?.join none)

/-- The `due_date` branch: selected group normalized by
`_clean_and_convert_date`. -/
def dueField : Option RMatch → Option (Option String)
  | none => none
  | some m => some (clean_and_convert_date (pickGroup m.groups) none)

/-- The amount branches (`total_due`, `min_due`, `credit_limit`,
`available_limit`): selected group normalized by
`_clean_and_convert_amount`. -/
def amtField : Option RMatch → Option (Option PyFloat)
  | none => none
  | some m => some (clean_and_convert_amount (pickGroup m.groups))

/-- `parse_pdf_content(pdf_text, bank_name)`: look the institution up in the
catalog ( `{}` when absent), then extract each field with the ordered pattern
lists. -/
def parse_pdf_content (pdf_text bank_name : String) : ParsedData :=
  match COMPREHENSIVE_BANK_PATTERNS (lowerStr bank_name) with
  | none => emptyParsed
  | some pats =>
    ParsedData.mk
      (some (upperStr bank_name))
      (cardField (extract_with_multiple_patterns pdf_text pats.card_number))
      (stmtField (extract_with_multiple_patterns pdf_text pats.statement_date))
      (dueField (extract_with_multiple_patterns pdf_text pats.due_date))
      (amtField (extract_with_multiple_patterns pdf_text pats.total_due))
      (amtField (extract_with_multiple_patterns pdf_text pats.min_due))
      (amtField (extract_with_multiple_patterns pdf_text pats.credit_limit))
      (amtField (extract_with_multiple_patterns pdf_text pats.available_limit))

/-- `dict.get` for the two-level optional fields: an absent key and a key
holding `None` both read back as `None`. -/
def getOpt : Option (Option String) → Option String := Option.join

/-- Python truthiness of a `str | None` value: `None` and `""` are falsy. -/
def truthyOS : Option String → Bool
  | none => false
  | some s => s != ""

/-- Truthiness of `parsed_data.get(field)` for a two-level optional field. -/
def truthyS (x : Option (Option String)) : Bool := truthyOS x.join

/-- Substring test, `needle in hay` on the character lists. -/
def containsSub (hay needle : List Char) : Bool :=
  if needle.isPrefixOf hay then true
  else
    match hay with
    | [] => needle.isEmpty
    | _ :: tl => containsSub tl needle

/-- The final block of `analyze_pdf`: "Only validate chronological order if
both dates exist".  Both date strings must be truthy; the two `strptime`
calls sit in a `try` whose `except Exception: pass` accepts the record when
either parse fails; otherwise `due < stmt` rejects. -/
def chronoCheck (parsed_data : ParsedData) : Option ParsedData :=
  match getOpt parsed_data.statement_date, getOpt parsed_data.due_date with
  | some ss, some ds =>
    if ss == "" || ds == "" then some parsed_data
    else
      match strptimeISO ss, strptimeISO ds with
      | some st, some du =>
        if ordD du < ordD st then none else some parsed_data
      | some _, none => some parsed_data
      | none, _ => some parsed_data
  | _, _ => some parsed_data

/-- `analyze_pdf` from the text-extraction result onward.  `pdf_text` is the
outcome of `_extract_text_from_pdf` (I/O, hence a parameter); `now` is the
calendar date of `datetime.now()` at validation time.  Mirrors, in order:
the falsy-text bail-out, the ICICI amortization-schedule guard, parsing, the
essential-field check on `card_last4` and `due_date`, `_is_valid_date`, and
the final chronology re-check `chronoCheck`. -/
def analyze_pdf (now : PDate) (pdf_text : Option String) (bank_name : String) :
    Option ParsedData :=
  match pdf_text with
  | none => none
  | some text =>
    if text == "" then none
    else if lowerStr bank_name == "icici" &&
        containsSub (lowerStr text).data "amortization schedule".data then none
    else
      let parsed_data := parse_pdf_content text bank_name
      if !(truthyS parsed_data.card_last4) || !(truthyS parsed_data.due_date) then none
      else if !(is_valid_date now (getOpt parsed_data.due_date)
          (getOpt parsed_data.statement_date)) then none
      else chronoCheck parsed_data

/-- Validation date used in the concrete runs below: 15 January 2025. -/
def now1 : PDate := PDate.mk 2025 1 15

/-- Concrete statement text A: an HDFC-shaped statement whose due date,
16 January 2027, lies one day beyond two years after `now1`. -/
def texA : String :=
  "Statement Date: 15/01/2026 Payment Due Date: 16/01/2027 1234 **** 5678"

/-- Concrete statement text B: the statement-date pattern matches the
non-date `99/99/2024`, which fails every normalization format. -/
def texB : String :=
  "Statement Date: 99/99/2024 Payment Due Date: 15/01/2026 1234 **** 5678"

/-- The record `analyze_pdf` accepts for `texA`. -/
def recA : ParsedData :=
  ParsedData.mk (some "HDFC") (some (some "5678")) (some (some "2026-01-15"))
    (some (some "2027-01-16")) none none none none

/-- The record `analyze_pdf` accepts for `texB`: the `statement_date` key is
present with value `None`. -/
def recB : ParsedData :=
  ParsedData.mk (some "HDFC") (some (some "5678")) (some none)
    (some (some "2026-01-15")) none none none none

/-! Helper lemmas shared by the claim theorems. -/

/-- Concrete acceptance run A, computed once and shared. -/
theorem acceptA : analyze_pdf now1 (some texA) "hdfc" = some recA := by decide

/-- Concrete acceptance run B, computed once and shared. -/
theorem acceptB : analyze_pdf now1 (some texB) "hdfc" = some recB := by decide

/-- The format-trying loop returns the rendering of the first format that
parses, in the precise sense of `List.findSome?`. -/
theorem tryDateFormats_eq_findSome (fs : List Fmt) (s : String) :
    tryDateFormats fs s = fs.findSome? fun f => (strptimeFmt f s).map renderISO := by
  induction fs with
  | nil => rfl
  | cons f rest ih =>
    simp only [tryDateFormats, List.findSome?]
    cases strptimeFmt f s <;> simp [ih]

/-- The loop can also be phrased as rendering the first successful parse. -/
theorem tryDateFormats_eq_map_findSome (fs : List Fmt) (s : String) :
    tryDateFormats fs s = (fs.findSome? fun f => strptimeFmt f s).map renderISO := by
  induction fs with
  | nil => rfl
  | cons f rest ih =>
    simp only [tryDateFormats, List.findSome?]
    cases strptimeFmt f s <;> simp [ih]

/-- If no format parses, the loop yields `none`. -/
theorem tryDateFormats_none (fs : List Fmt) (s : String)
    (h : ∀ f ∈ fs, strptimeFmt f s = none) : tryDateFormats fs s = none := by
  induction fs with
  | nil => rfl
  | cons f rest ih =>
    simp only [tryDateFormats]
    rw [h f (List.mem_cons_self f rest)]
    exact ih (fun g hg => h g (List.mem_cons_of_mem f hg))

/-- No date format parses the empty string. -/
theorem strptime_empty_none : ∀ f ∈ DATE_FORMATS, strptimeFmt f "" = none := by decide

/-- What `_is_valid_date(date_str, statement_date_str) == True` guarantees:
the date string is a parseable canonical date within the year-bounded future
window and the 550-day past window, and any truthy statement date parses and
does not exceed it. -/
theorem is_valid_date_spec (now : PDate) (ds ss : Option String)
    (h : is_valid_date now ds ss = true) :
    ∃ s p, ds = some s ∧ (s == "") = false ∧ strptimeISO s = some p ∧
      p.y ≤ now.y + 2 ∧ (ordD now : Int) - (ordD p : Int) ≤ 550 ∧
      ∀ t, ss = some t → (t == "") = false →
        ∃ st, strptimeISO t = some st ∧ ordD st ≤ ordD p := by
  unfold is_valid_date at h
  split at h
  · exact absurd h (by simp)
  next s =>
    split_ifs at h with hse
    split at h
    · exact absurd h (by simp)
    next p hp =>
      split_ifs at h with hy hpast
      refine ⟨s, p, rfl, by simpa using hse, hp, Nat.le_of_not_lt hy, Int.not_lt.mp hpast, ?_⟩
      intro t ht hte
      split at h
      · exact absurd ht (by simp)
      next t' =>
        injection ht with ht'
        subst ht'
        split_ifs at h with h1
        · exact absurd h1 (by simp [hte])
        · split at h
          · exact absurd h (by simp)
          next st hst =>
            refine ⟨st, hst, ?_⟩
            simpa using h

/-- Whatever the chronology block returns, it returns the record unchanged. -/
theorem chronoCheck_some (p r : ParsedData) (h : chronoCheck p = some r) : r = p := by
  unfold chronoCheck at h
  split at h
  · split_ifs at h with h1
    · exact (Option.some_inj.mp h).symm
    · split at h
      · split_ifs at h
        exact (Option.some_inj.mp h).symm
      · exact (Option.some_inj.mp h).symm
      · exact (Option.some_inj.mp h).symm
  · exact (Option.some_inj.mp h).symm

/-- With a null (or absent) statement date the chronology block accepts
unconditionally. -/
theorem chronoCheck_stmt_none (p : ParsedData)
    (h : getOpt p.statement_date = none) : chronoCheck p = some p := by
  unfold chronoCheck
  split
  next ss ds hss _ => rw [h] at hss; exact absurd hss (by simp)
  next => rfl

/-- What acceptance by `analyze_pdf` guarantees: the returned record is the
parse result, the text was non-empty, both essential fields were truthy and
`_is_valid_date` approved the due date against the statement date. -/
theorem analyze_accept_spec (now : PDate) (text bank : String) (r : ParsedData)
    (h : analyze_pdf now (some text) bank = some r) :
    r = parse_pdf_content text bank ∧ (text == "") = false ∧
    truthyS r.card_last4 = true ∧ truthyS r.due_date = true ∧
    is_valid_date now (getOpt r.due_date) (getOpt r.statement_date) = true := by
  simp only [analyze_pdf] at h
  split_ifs at h with h1 h2 h3 h4
  have hr : r = parse_pdf_content text bank := chronoCheck_some _ _ h
  subst hr
  simp only [Bool.or_eq_true, Bool.not_eq_true', not_or, Bool.not_eq_false] at h3
  rw [Bool.not_eq_true', Bool.not_eq_false] at h4
  exact ⟨rfl, by simpa using h1, h3.1, h3.2, h4⟩

/-- A failed essential-field check makes `analyze_pdf` return `None`. -/
theorem analyze_reject_essential (now : PDate) (text bank : String)
    (h : truthyS (parse_pdf_content text bank).card_last4 = false ∨
      truthyS (parse_pdf_content text bank).due_date = false) :
    analyze_pdf now (some text) bank = none := by
  simp only [analyze_pdf]
  split_ifs with h1 h2 h3 h4
  any_goals rfl
  exfalso
  apply h3
  rcases h with h | h <;> simp [h]

/-- When the guards pass and the validator approves, `analyze_pdf` reaches the
chronology block on the parse result. -/
theorem analyze_accept_of (now : PDate) (text bank : String)
    (h1 : (text == "") = false)
    (h2 : (lowerStr bank == "icici" &&
      containsSub (lowerStr text).data "amortization schedule".data) = false)
    (h3 : truthyS (parse_pdf_content text bank).card_last4 = true)
    (h4 : truthyS (parse_pdf_content text bank).due_date = true)
    (h5 : is_valid_date now (getOpt (parse_pdf_content text bank).due_date)
      (getOpt (parse_pdf_content text bank).statement_date) = true) :
    analyze_pdf now (some text) bank = chronoCheck (parse_pdf_content text bank) := by
  simp only [analyze_pdf]
  rw [if_neg (by simp [h1]), if_neg (by simp [h2]),
    if_neg (by simp [h3, h4]), if_neg (by simp [h5])]

/-- The `card_number` branch with exactly one group stores that group. -/
theorem cardField_one (m : RMatch) (h : m.groups.length = 1) :
    cardField (some m) = some m.groups.head?.join := by
  simp [cardField, h]

/-- The `card_number` branch with several groups stores the last group. -/
theorem cardField_gt (m : RMatch) (h : 1 < m.groups.length) :
    cardField (some m) = some m.groups.getLast?.join := by
  simp only [cardField]
  rw [if_neg (by simp; omega), if_pos (by simpa using h)]

/-- Group selection with exactly one group takes that group. -/
theorem pickGroup_one (gs : List (Option String)) (h : gs.length = 1) :
    pickGroup gs = gs.head?.join := by
  simp [pickGroup, h]

/-- Group selection with several groups takes the last group. -/
theorem pickGroup_gt (gs : List (Option String)) (h : 1 < gs.length) :
    pickGroup gs = gs.getLast?.join := by
  unfold pickGroup
  rw [if_neg (by simp; omega)]

/-- When some format succeeds, `_clean_and_convert_date` renders the first
successful parse. -/
theorem clean_date_of_findSome (s : String) (d : PDate)
    (h : (DATE_FORMATS.findSome? fun f => strptimeFmt f s) = some d) :
    clean_and_convert_date (some s) none = some (renderISO d) := by
  have hs : (s == "") = false := by
    cases hval : (s == "") with
    | false => rfl
    | true =>
      have hseq : s = "" := by simpa using hval
      subst hseq
      rw [show (DATE_FORMATS.findSome? fun f => strptimeFmt f "") = (none : Option PDate)
        from by decide] at h
      exact absurd h (by simp)
  simp only [clean_and_convert_date]
  rw [if_neg (by simp [hs])]
  rw [tryDateFormats_eq_map_findSome, h]
  rfl

/-- C1: the plausibility window of accepted records, as the code enforces it:
the 550-day past bound is exact, but the future bound compares calendar years
(`parsed_date.year > current_date.year + 2`), not dates. -/
theorem plausibility_window_year_bound :
    ∀ (now : PDate) (text bank : String) (r : ParsedData),
      analyze_pdf now (some text) bank = some r →
      ∃ s d, r.due_date = some (some s) ∧ strptimeISO s = some d ∧
        d.y ≤ now.y + 2 ∧ (ordD now : Int) - (ordD d : Int) ≤ 550 := by
  intro now text bank r h
  obtain ⟨_, _, _, _, hvalid⟩ := analyze_accept_spec now text bank r h
  obtain ⟨s, d, hds, _, hp, hy, hpast, _⟩ := is_valid_date_spec now _ _ hvalid
  simp only [getOpt] at hds
  exact ⟨s, d, Option.join_eq_some.mp hds, hp, hy, hpast⟩

/-- C1 witness: the invariant instantiated at the concrete accepted run A. -/
theorem plausibility_window_year_bound_witness :
    ∃ s d, recA.due_date = some (some s) ∧ strptimeISO s = some d ∧
      d.y ≤ now1.y + 2 ∧ (ordD now1 : Int) - (ordD d : Int) ≤ 550 :=
  plausibility_window_year_bound now1 texA "hdfc" recA acceptA

/-- C1: counterexample to the claimed exact two-year future bound.  With the
validation date 2025-01-15, the date two years ahead is 2027-01-15; the
record accepted for `texA` carries the due date 2027-01-16, one day beyond
that boundary, yet `analyze_pdf` accepts it because only the year is
compared. -/
theorem due_date_beyond_two_year_window_accepted :
    analyze_pdf now1 (some texA) "hdfc" = some recA ∧
    recA.due_date = some (some "2027-01-16") ∧
    strptimeISO "2027-01-16" = some (PDate.mk 2027 1 16) ∧
    now1 = PDate.mk 2025 1 15 ∧
    ordD (PDate.mk 2027 1 16) = ordD (PDate.mk 2027 1 15) + 1 :=
  ⟨acceptA, by decide, by decide, rfl, by decide⟩

/-- C2: counterexample.  `"05/02/2024"` is a supported-format string
(`%m/%d/%Y`) denoting 2 May 2024, and `"02 May 2024"` (`%d %b %Y`) denotes
the same calendar date, yet normalization maps them to different canonical
outputs, because `%d/%m/%Y` is tried first and claims the former as
5 February 2024. -/
theorem date_normalization_not_format_independent :
    strptimeFmt Fmt.fmt_m_d_Y_slash "05/02/2024" = some (PDate.mk 2024 5 2) ∧
    strptimeFmt Fmt.fmt_d_b_Y "02 May 2024" = some (PDate.mk 2024 5 2) ∧
    clean_and_convert_date (some "05/02/2024") none ≠
      clean_and_convert_date (some "02 May 2024") none :=
  ⟨by decide, by decide, by decide⟩

/-- C2 (amended): two raw strings that the normalizer itself resolves — via
the first matching format in `DATE_FORMATS` — to the same calendar date are
mapped to the identical canonical output. -/
theorem date_normalization_first_parse_agreement :
    ∀ (s1 s2 : String) (d : PDate),
      (DATE_FORMATS.findSome? fun f => strptimeFmt f s1) = some d →
      (DATE_FORMATS.findSome? fun f => strptimeFmt f s2) = some d →
      clean_and_convert_date (some s1) none = clean_and_convert_date (some s2) none := by
  intro s1 s2 d h1 h2
  rw [clean_date_of_findSome s1 d h1, clean_date_of_findSome s2 d h2]

/-- C2 witness: `"15/01/2024"` and `"15 Jan 2024"` both resolve to
15 January 2024 and normalize identically. -/
theorem date_normalization_first_parse_agreement_witness :
    clean_and_convert_date (some "15/01/2024") none =
      clean_and_convert_date (some "15 Jan 2024") none :=
  date_normalization_first_parse_agreement "15/01/2024" "15 Jan 2024"
    (PDate.mk 2024 1 15) (by decide) (by decide)

/-- C3: every accepted record has truthy `card_last4` and `due_date`, and a
parse whose essential fields are missing or empty makes `analyze_pdf` return
the explicit absence value (the embedding is total, so no exception can
escape). -/
theorem mandatory_fields_law :
    (∀ (now : PDate) (text bank : String) (r : ParsedData),
      analyze_pdf now (some text) bank = some r →
      truthyS r.card_last4 = true ∧ truthyS r.due_date = true) ∧
    (∀ (now : PDate) (text bank : String),
      truthyS (parse_pdf_content text bank).card_last4 = false ∨
        truthyS (parse_pdf_content text bank).due_date = false →
      analyze_pdf now (some text) bank = none) := by
  constructor
  · intro now text bank r h
    obtain ⟨_, _, hc, hd, _⟩ := analyze_accept_spec now text bank r h
    exact ⟨hc, hd⟩
  · intro now text bank h
    exact analyze_reject_essential now text bank h

/-- C3 witness: run A satisfies the mandatory-field law, and the essential
check rejects a text in which no field matches. -/
theorem mandatory_fields_law_witness :
    (truthyS recA.card_last4 = true ∧ truthyS recA.due_date = true) ∧
    analyze_pdf now1 (some "hello") "hdfc" = none :=
  ⟨mandatory_fields_law.1 now1 texA "hdfc" recA acceptA,
   mandatory_fields_law.2 now1 "hello" "hdfc" (Or.inr (by decide))⟩

/-- C4: in every accepted record whose `statement_date` is present and
non-null, both canonical dates parse and the due date is on or after the
statement date. -/
theorem chronology_law :
    ∀ (now : PDate) (text bank : String) (r : ParsedData) (s : String),
      analyze_pdf now (some text) bank = some r →
      r.statement_date = some (some s) → (s == "") = false →
      ∃ st ds du, strptimeISO s = some st ∧ r.due_date = some (some ds) ∧
        strptimeISO ds = some du ∧ ordD st ≤ ordD du := by
  intro now text bank r s h hst hse
  obtain ⟨_, _, _, _, hvalid⟩ := analyze_accept_spec now text bank r h
  obtain ⟨ds, du, hds, _, hdu, _, _, hstmt⟩ := is_valid_date_spec now _ _ hvalid
  obtain ⟨st, hstp, hord⟩ := hstmt s (by rw [show getOpt r.statement_date = some s from by rw [hst]; rfl]) hse
  simp only [getOpt] at hds
  exact ⟨st, ds, du, hstp, Option.join_eq_some.mp hds, hdu, hord⟩

/-- C4 witness: the chronology law instantiated at run A, whose statement
date 2026-01-15 precedes its due date 2027-01-16. -/
theorem chronology_law_witness :
    ∃ st ds du, strptimeISO "2026-01-15" = some st ∧ recA.due_date = some (some ds) ∧
      strptimeISO ds = some du ∧ ordD st ≤ ordD du :=
  chronology_law now1 texA "hdfc" recA "2026-01-15" acceptA (by decide) (by decide)

/-- C5: group selection during field extraction.  For each of `card_number`,
`due_date`, `total_due`, `min_due`, `credit_limit` and `available_limit`,
when the winning strategy match has exactly one capture group that group's
value is the one used (fed to normalization for the non-card fields), and
when it has more than one the last group's value is used. -/
theorem group_selection_rule :
    ∀ (text bank : String) (pats : BankPatterns),
      COMPREHENSIVE_BANK_PATTERNS (lowerStr bank) = some pats →
      (∀ m : RMatch, extract_with_multiple_patterns text pats.card_number = some m →
        (m.groups.length = 1 →
          (parse_pdf_content text bank).card_last4 = some m.groups.head?.join) ∧
        (1 < m.groups.length →
          (parse_pdf_content text bank).card_last4 = some m.groups.getLast?.join)) ∧
      (∀ m : RMatch, extract_with_multiple_patterns text pats.due_date = some m →
        (m.groups.length = 1 →
          (parse_pdf_content text bank).due_date =
            some (clean_and_convert_date m.groups.head?.join none)) ∧
        (1 < m.groups.length →
          (parse_pdf_content text bank).due_date =
            some (clean_and_convert_date m.groups.getLast?.join none))) ∧
      (∀ m : RMatch, extract_with_multiple_patterns text pats.total_due = some m →
        (m.groups.length = 1 →
          (parse_pdf_content text bank).total_due =
            some (clean_and_convert_amount m.groups.head?.join)) ∧
        (1 < m.groups.length →
          (parse_pdf_content text bank).total_due =
            some (clean_and_convert_amount m.groups.getLast?.join))) ∧
      (∀ m : RMatch, extract_with_multiple_patterns text pats.min_due = some m →
        (m.groups.length = 1 →
          (parse_pdf_content text bank).min_due =
            some (clean_and_convert_amount m.groups.head?.join)) ∧
        (1 < m.groups.length →
          (parse_pdf_content text bank).min_due =
            some (clean_and_convert_amount m.groups.getLast?.join))) ∧
      (∀ m : RMatch, extract_with_multiple_patterns text pats.credit_limit = some m →
        (m.groups.length = 1 →
          (parse_pdf_content text bank).credit_limit =
            some (clean_and_convert_amount m.groups.head?.join)) ∧
        (1 < m.groups.length →
          (parse_pdf_content text bank).credit_limit =
            some (clean_and_convert_amount m.groups.getLast?.join))) ∧
      (∀ m : RMatch, extract_with_multiple_patterns text pats.available_limit = some m →
        (m.groups.length = 1 →
          (parse_pdf_content text bank).available_limit =
            some (clean_and_convert_amount m.groups.head?.join)) ∧
        (1 < m.groups.length →
          (parse_pdf_content text bank).available_limit =
            some (clean_and_convert_amount m.groups.getLast?.join))) := by
  intro text bank pats hc
  have hparse : parse_pdf_content text bank =
      ParsedData.mk
        (some (upperStr bank))
        (cardField (extract_with_multiple_patterns text pats.card_number))
        (stmtField (extract_with_multiple_patterns text pats.statement_date))
        (dueField (extract_with_multiple_patterns text pats.due_date))
        (amtField (extract_with_multiple_patterns text pats.total_due))
        (amtField (extract_with_multiple_patterns text pats.min_due))
        (amtField (extract_with_multiple_patterns text pats.credit_limit))
        (amtField (extract_with_multiple_patterns text pats.available_limit)) := by
    simp [parse_pdf_content, hc]
  refine ⟨?_, ?_, ?_, ?_, ?_, ?_⟩ <;> intro m hm <;> constructor <;> intro hlen <;>
    rw [hparse] <;> simp only [hm]
  · exact cardField_one m hlen
  · exact cardField_gt m hlen
  · simp [dueField, pickGroup_one m.groups hlen]
  · simp [dueField, pickGroup_gt m.groups hlen]
  · simp [amtField, pickGroup_one m.groups hlen]
  · simp [amtField, pickGroup_gt m.groups hlen]
  · simp [amtField, pickGroup_one m.groups hlen]
  · simp [amtField, pickGroup_gt m.groups hlen]
  · simp [amtField, pickGroup_one m.groups hlen]
  · simp [amtField, pickGroup_gt m.groups hlen]
  · simp [amtField, pickGroup_one m.groups hlen]
  · simp [amtField, pickGroup_gt m.groups hlen]

/-- C5 witness: in run A the card match has two groups and the last one,
`5678`, is stored; the due-date match has one group and that group is used. -/
theorem group_selection_rule_witness :
    (parse_pdf_content texA "hdfc").card_last4 = some (some "5678") ∧
    (parse_pdf_content texA "hdfc").due_date = some (some "2027-01-16") := by
  have h := group_selection_rule texA "hdfc" hdfcPatterns rfl
  have hcard := (h.1 (RMatch.mk [some "1234", some "5678"]) (by decide)).2 (by decide)
  have hdue := (h.2.1 (RMatch.mk [some "16/01/2027"]) (by decide)).1 (by decide)
  exact ⟨hcard.trans (by decide), hdue.trans (by decide)⟩

/-- C6: the extractor tries the strategies of a field strictly in listed
order and keeps the first that matches; in particular, when every strategy
before `p` fails and `p` matches, the extracted match is exactly what `p`
alone would produce, regardless of any later (more generic) pattern. -/
theorem extraction_strategy_order :
    (∀ (text : String) (ps : List String),
      extract_with_multiple_patterns text ps =
        (ps.find? fun p => (research p text).isSome).bind fun p => research p text) ∧
    (∀ (text p : String) (pre post : List String) (m : RMatch),
      (∀ q ∈ pre, research q text = none) → research p text = some m →
      extract_with_multiple_patterns text (pre ++ p :: post) = some m ∧
      extract_with_multiple_patterns text [p] = some m) := by
  constructor
  · intro text ps
    induction ps with
    | nil => rfl
    | cons q rest ih =>
      simp only [extract_with_multiple_patterns, List.find?]
      cases hq : research q text with
      | some m => simp [hq]
      | none => simp [hq, ih]
  · intro text p pre post m hpre hp
    constructor
    · induction pre with
      | nil => simp [extract_with_multiple_patterns, hp]
      | cons q rest ih =>
        simp only [List.cons_append, extract_with_multiple_patterns]
        rw [hpre q (List.mem_cons_self q rest)]
        exact ih (fun x hx => hpre x (List.mem_cons_of_mem q hx))
    · simp [extract_with_multiple_patterns, hp]

/-- C6 witness: with a failing first strategy and a matching second one, the
result equals what the second strategy alone produces. -/
theorem extraction_strategy_order_witness :
    extract_with_multiple_patterns "abc" ["x", "b"] = some (RMatch.mk []) ∧
    extract_with_multiple_patterns "abc" ["b"] = some (RMatch.mk []) :=
  extraction_strategy_order.2 "abc" "b" ["x"] [] (RMatch.mk []) (by decide) (by decide)

/-- C7: an institution identifier missing from the catalog makes
`parse_pdf_content` return the empty mapping and `analyze_pdf` return the
absence value, regardless of the text. -/
theorem unknown_institution_rejected :
    ∀ (text bank : String) (now : PDate),
      COMPREHENSIVE_BANK_PATTERNS (lowerStr bank) = none →
      parse_pdf_content text bank = emptyParsed ∧
      analyze_pdf now (some text) bank = none := by
  intro text bank now h
  have hparse : parse_pdf_content text bank = emptyParsed := by
    simp [parse_pdf_content, h]
  refine ⟨hparse, analyze_reject_essential now text bank ?_⟩
  left
  rw [hparse]
  rfl

/-- C7 witness: the unknown identifier `citi` is rejected on arbitrary
text. -/
theorem unknown_institution_rejected_witness :
    parse_pdf_content "any text" "citi" = emptyParsed ∧
    analyze_pdf now1 (some "any text") "citi" = none :=
  unknown_institution_rejected "any text" "citi" now1 rfl

/-- C8: date normalization returns the canonical rendering of the first
format in the fixed list that parses, and returns the absence value when no
format parses; the embedding is total, so no error escapes. -/
theorem clean_date_first_format_wins :
    (∀ s : String, (s == "") = false →
      clean_and_convert_date (some s) none =
        DATE_FORMATS.findSome? fun f => (strptimeFmt f s).map renderISO) ∧
    (∀ s : String, (∀ f ∈ DATE_FORMATS, strptimeFmt f s = none) →
      clean_and_convert_date (some s) none = none) := by
  constructor
  · intro s hs
    simp only [clean_and_convert_date]
    rw [if_neg (by simp [hs])]
    exact tryDateFormats_eq_findSome DATE_FORMATS s
  · intro s hall
    by_cases hs : (s == "") = true
    · simp [clean_and_convert_date, hs]
    · simp only [clean_and_convert_date]
      rw [if_neg (by simpa using hs)]
      exact tryDateFormats_none DATE_FORMATS s hall

/-- C8 witness: the first matching format wins for `"15 Jan 2024"`, and a
string no format parses yields the absence value. -/
theorem clean_date_first_format_wins_witness :
    clean_and_convert_date (some "15 Jan 2024") none = some "2024-01-15" ∧
    clean_and_convert_date (some "99/99/2024") none = none :=
  ⟨(clean_date_first_format_wins.1 "15 Jan 2024" (by decide)).trans (by decide),
   clean_date_first_format_wins.2 "99/99/2024" (by decide)⟩

/-- C9: amount normalization strips currency glyphs, grouping commas and
whitespace, so the three sample spellings produce the identical value
123456.78 (canonically `12345678 * 10^(-2)`); and whenever the stripped
remainder does not parse as a float the result is the absence value (the
embedding is total, so no error escapes). -/
theorem amount_normalization_spec :
    (clean_and_convert_amount (some "₹1,23,456.78") =
        some (PyFloat.finite false 12345678 (-2)) ∧
      clean_and_convert_amount (some "1,23,456.78") =
        some (PyFloat.finite false 12345678 (-2)) ∧
      clean_and_convert_amount (some "123456.78") =
        some (PyFloat.finite false 12345678 (-2))) ∧
    (∀ s : String, pyFloatOfStr (stripAmount s) = none →
      clean_and_convert_amount (some s) = none) := by
  refine ⟨⟨by decide, by decide, by decide⟩, ?_⟩
  intro s hs
  by_cases hse : (s == "") = true
  · simp [clean_and_convert_amount, hse]
  · simp only [clean_and_convert_amount]
    rw [if_neg hse]
    exact hs

/-- C9 witness: a remainder that is not a decimal numeral yields absence. -/
theorem amount_normalization_spec_witness :
    clean_and_convert_amount (some "abc") = none :=
  amount_normalization_spec.2 "abc" (by decide)

/-- C10: when a statement-date strategy matches but the captured raw string
fails date normalization, the mapping holds the key `statement_date` with the
null value (`some none`, present-but-null); run B shows `analyze_pdf` can
still accept such a record; and acceptance then needs no chronology
condition at all — the validator is invoked with a null statement date and
the chronology block is skipped. -/
theorem statement_date_present_but_null :
    (∀ (text bank : String) (pats : BankPatterns) (m : RMatch),
      COMPREHENSIVE_BANK_PATTERNS (lowerStr bank) = some pats →
      extract_with_multiple_patterns text pats.statement_date = some m →
      clean_and_convert_date m.groups.head?.join none = none →
      (parse_pdf_content text bank).statement_date = some none) ∧
    (analyze_pdf now1 (some texB) "hdfc" = some recB ∧
      recB.statement_date = some none) ∧
    (∀ (now : PDate) (text bank : String),
      (text == "") = false →
      (lowerStr bank == "icici" &&
        containsSub (lowerStr text).data "amortization schedule".data) = false →
      (parse_pdf_content text bank).statement_date = some none →
      truthyS (parse_pdf_content text bank).card_last4 = true →
      truthyS (parse_pdf_content text bank).due_date = true →
      is_valid_date now (getOpt (parse_pdf_content text bank).due_date) none = true →
      analyze_pdf now (some text) bank = some (parse_pdf_content text bank)) := by
  refine ⟨?_, ⟨acceptB, by decide⟩, ?_⟩
  · intro text bank pats m hc hm hclean
    have hparse : (parse_pdf_content text bank).statement_date =
        stmtField (extract_with_multiple_patterns text pats.statement_date) := by
      simp [parse_pdf_content, hc]
    rw [hparse, hm]
    show some (clean_and_convert_date m.groups.head?.join none) = some none
    rw [hclean]
  · intro now text bank h1 h2 h3 h4 h5 h6
    have hnull : getOpt (parse_pdf_content text bank).statement_date = none := by
      rw [h3]; rfl
    have hacc := analyze_accept_of now text bank h1 h2 h4 h5
      (by rw [hnull]; exact h6)
    rw [hacc]
    exact chronoCheck_stmt_none _ hnull

/-- C10 witness: in run B the captured raw statement date `99/99/2024` fails
normalization and the key is stored present-but-null. -/
theorem statement_date_present_but_null_witness :
    (parse_pdf_content texB "hdfc").statement_date = some none :=
  statement_date_present_but_null.1 texB "hdfc" hdfcPatterns
    (RMatch.mk [some "99/99/2024"]) rfl (by decide) (by decide)

end Circe
